import Mathlib

/-!
Shallow embedding of the `sqlite_test_utils` crate
(`src/sqlite3process.rs` and `src/lib.rs`).

The interactive-process session (`Sqlite3Process`) is modelled by making
the external world explicit: the spawn outcome, the pipe handles, the
stream of inbound lines, the poll results of `Child::try_wait`, and the
injectable clock all become parameters of the Lean functions.  Pure
helpers (`is_timed_out`, `should_log_error`) are translated directly.
-/

namespace SqliteTestUtils

/-! ## Substring containment (Rust `str::contains`) -/

/-- `prefixAt needle hay` is true when `needle` is a prefix of `hay`
(character-by-character comparison, as `str` slices compare bytes). -/
def prefixAt : List Char → List Char → Bool
  | [], _ => true
  | _ :: _, [] => false
  | c :: cs, d :: ds => (c == d) && prefixAt cs ds

/-- `containsSub needle hay` is true when `needle` occurs as a contiguous
substring of `hay` at some position (including the very end). -/
def containsSub (needle : List Char) : List Char → Bool
  | [] => prefixAt needle []
  | d :: ds => prefixAt needle (d :: ds) || containsSub needle ds

/-- Rust's `s.contains(pat)` for string slices. -/
def strContains (s pat : String) : Bool :=
  containsSub pat.data s.data

/-! ## Durations and the pure helpers of `sqlite3process.rs` -/

/-- `std::time::Duration`, measured in nanoseconds (Rust `Duration`
comparison is comparison of total nanoseconds). -/
abbrev Duration := Nat

/-- `Duration::from_secs`. -/
def Duration.fromSecs (s : Nat) : Duration := s * 1000000000

/-- `Duration::from_millis`. -/
def Duration.fromMillis (ms : Nat) : Duration := ms * 1000000

/-- `fn is_timed_out(elapsed: Duration, timeout: Duration) -> bool`
from `sqlite3process.rs`: `elapsed > timeout`. -/
def is_timed_out (elapsed timeout : Duration) : Bool :=
  timeout < elapsed

/-- `fn should_log_error(success: bool, stderr_empty: bool) -> bool`
from `sqlite3process.rs`: `!success && !stderr_empty`. -/
def should_log_error (success stderr_empty : Bool) : Bool :=
  !success && !stderr_empty

/-! ## Construction (`Sqlite3Process::new`) -/

/-- The handles still attached to a freshly spawned `Child` (each
`Option` is the corresponding `Option<ChildStdin>` etc. before `take`). -/
structure SpawnedChild where
  stdin : Option Unit
  stdout : Option Unit
  stderr : Option Unit

/-- Outcome of `Command::spawn`. -/
inductive SpawnOutcome where
  | failure (e : String)
  | ok (c : SpawnedChild)

/-- The `Sqlite3Process` struct: which handles the session holds, plus
the database path retained for diagnostics. -/
structure Sqlite3Process where
  child_present : Bool
  stdin_present : Bool
  stdout_present : Bool
  stderr_present : Bool
  db_path : String

/-- `Sqlite3Process::new`: spawn, then take stdin and stdout (each
failing construction when absent); stderr is taken without a check and
stored as-is. -/
def new (db_path : String) (spawn : SpawnOutcome) : Except String Sqlite3Process :=
  match spawn with
  | .failure e => .error ("Failed to spawn sqlite3: " ++ e)
  | .ok c =>
    match c.stdin with
    | none => .error "Failed to get stdin handle"
    | some _ =>
      match c.stdout with
      | none => .error "Failed to get stdout handle"
      | some _ =>
        .ok { child_present := true, stdin_present := true, stdout_present := true,
              stderr_present := c.stderr.isSome, db_path := db_path }

/-! ## Command execution (`Sqlite3Process::execute`) -/

/-- One event delivered by `BufReader::read_line` on the child's stdout:
either a line (with its terminator, `Ok(n)` with `n > 0`) or an I/O
error (`Err(e)`).  End of stream (`Ok(0)`) is the end of the list. -/
inductive ReadEvent where
  | line (s : String)
  | ioErr (e : String)

/-- The outcomes of the four sequential stdin operations in `execute`
(write sql, flush, write marker, flush): `none` is success, `some e` is
an I/O error with message `e`. -/
structure StdinPipe where
  w1 : Option String
  f1 : Option String
  w2 : Option String
  f2 : Option String

/-- The read loop of `execute` (lines 131–150 of `sqlite3process.rs`):
reads events one at a time; a line containing `MARKER_END` sets
`found_marker` and breaks; otherwise a line not containing
`SELECT 'MARKER_END'` is appended to the accumulator; end of stream
with no marker yields the incomplete-output error.  Also returns the
number of events consumed. -/
def readOutput : List ReadEvent → String → Except String String × Nat
  | [], _ => (.error "Failed to read complete output", 0)
  | .ioErr e :: _, _ => (.error ("Failed to read: " ++ e), 1)
  | .line l :: rest, acc =>
    if strContains l "MARKER_END" then (.ok acc, 1)
    else
      if strContains l "SELECT 'MARKER_END'" then
        let r := readOutput rest acc
        (r.1, r.2 + 1)
      else
        let r := readOutput rest (acc ++ l)
        (r.1, r.2 + 1)

/-- Result of `execute`: the returned value, the strings actually
written to the child's stdin, and the number of stdout events consumed. -/
structure ExecResult where
  result : Except String String
  writes : List String
  linesRead : Nat

/-- `Sqlite3Process::execute`: check the stdin and stdout handles, write
the command and the sentinel (each write/flush may fail), then run the
read loop. -/
def execute (stdin : Option StdinPipe) (stdout : Option (List ReadEvent))
    (sql : String) : ExecResult :=
  match stdin with
  | none => ⟨.error "stdin is not available", [], 0⟩
  | some pipe =>
    match stdout with
    | none => ⟨.error "stdout is not available", [], 0⟩
    | some events =>
      match pipe.w1 with
      | some e => ⟨.error ("Failed to write: " ++ e), [], 0⟩
      | none =>
        match pipe.f1 with
        | some e => ⟨.error ("Failed to flush: " ++ e), [sql ++ "\n"], 0⟩
        | none =>
          match pipe.w2 with
          | some e => ⟨.error ("Failed to write marker: " ++ e), [sql ++ "\n"], 0⟩
          | none =>
            match pipe.f2 with
            | some e =>
              ⟨.error ("Failed to flush: " ++ e),
                [sql ++ "\n", "SELECT 'MARKER_END';\n"], 0⟩
            | none =>
              let r := readOutput events ""
              ⟨r.1, [sql ++ "\n", "SELECT 'MARKER_END';\n"], r.2⟩

/-- A stdin pipe on which every write and flush succeeds. -/
def okPipe : StdinPipe := ⟨none, none, none, none⟩

/-- Concatenation of a sequence of lines, in order. -/
def concatLines : List String → String
  | [] => ""
  | l :: ls => l ++ concatLines ls

/-- The read loop exactly as the specification words it (used only to
compare against `readOutput`): the line that is the literal echo of
`SELECT 'MARKER_END';` is discarded and reading continues; the first
subsequent line containing `MARKER_END` terminates the read and is
discarded; every other line is appended. -/
def readOutputSpecModel : List String → String → Option String
  | [], _ => none
  | l :: rest, acc =>
    if l == "SELECT 'MARKER_END';\n" then readOutputSpecModel rest acc
    else if strContains l "MARKER_END" then some acc
    else readOutputSpecModel rest (acc ++ l)

/-! ## Fixture population (`Sqlite3Process::create_dummy_data`) -/

/-- Outcome of a fail-fast batch of `execute(..).unwrap()` calls: either
every statement ran, or the first failure aborted the batch (a panic).
`executed` lists the statements that succeeded, in order. -/
inductive BatchOutcome where
  | completed (executed : List String)
  | panicked (executed : List String) (failing : String) (msg : String)
  deriving DecidableEq

/-- The table-creation statement of `create_dummy_data`. -/
def createStmt : String := "CREATE TABLE test (id INTEGER PRIMARY KEY, value TEXT);"

/-- The insert statement `create_dummy_data` formats for row `number`. -/
def insStmt (number : Nat) : String :=
  "INSERT INTO test (value) VALUES ('Hello, World! " ++ toString number ++ "');"

/-- The insert loop of `create_dummy_data`
(`for number in 1..1000 { self.execute(...).unwrap() }`), with the
remaining iteration count explicit.  `execRes` is the behaviour of
`self.execute` on each statement. -/
def dummyInsertLoop (execRes : String → Except String String) :
    Nat → Nat → List String → BatchOutcome
  | 0, _, done => .completed done.reverse
  | r + 1, number, done =>
    match execRes (insStmt number) with
    | .ok _ => dummyInsertLoop execRes r (number + 1) (insStmt number :: done)
    | .error e => .panicked done.reverse (insStmt number) e

/-- `Sqlite3Process::create_dummy_data`: one `CREATE TABLE` statement,
then one insert per `number in 1..1000`; any failing statement aborts
the batch (the `unwrap` panics). -/
def create_dummy_data (execRes : String → Except String String) : BatchOutcome :=
  match execRes createStmt with
  | .ok _ => dummyInsertLoop execRes 999 1 [createStmt]
  | .error e => .panicked [] createStmt e

/-! ## Shutdown sequence (`Drop for Sqlite3Process`) -/

/-- One answer of `Child::try_wait`: exited with a status (recording
`status.success()`), still running, or the query itself failed. -/
inductive TryWaitResult where
  | exited (success : Bool)
  | notYet
  | queryErr (e : String)
  deriving DecidableEq

/-- How one run of the shutdown sequence ends.  `returned` means the
`drop` body returned normally: `warnLogged` records whether the
exited-with-error warning was printed, `errLogged` whether the
try-wait-error message was printed, `killed` whether `child.kill()` was
called.  `panicked` is the fatal abort after a timeout (the process was
killed just before).  `outOfFuel` marks runs longer than the modelled
fuel. -/
inductive DropOutcome where
  | returned (warnLogged errLogged killed : Bool)
  | panicked (killed : Bool) (msg : String)
  | outOfFuel
  deriving DecidableEq

/-- The poll loop of `drop` (lines 203–227 of `sqlite3process.rs`),
iteration `i` reading `polls i` with `start.elapsed() = elapsed i`
(the clock is injectable, so elapsed values are arbitrary): on exit,
return with the `should_log_error` decision; on `Ok(None)`, panic if
timed out against the 60-second ceiling, else sleep and poll again; on
`Err`, log, kill and return. -/
def dropLoop (polls : Nat → TryWaitResult) (elapsed : Nat → Duration)
    (stderr_empty : Bool) (db_path : String) : Nat → Nat → DropOutcome
  | _, 0 => .outOfFuel
  | i, fuel + 1 =>
    match polls i with
    | .exited success =>
      .returned (should_log_error success stderr_empty) false false
    | .notYet =>
      if is_timed_out (elapsed i) (Duration.fromSecs 60) then
        .panicked true ("sqlite3 process hung for " ++ db_path)
      else
        dropLoop polls elapsed stderr_empty db_path (i + 1) fuel
    | .queryErr _ => .returned false true true

/-- The whole `drop` body: write `.exit` when the stdin handle is still
held, drain stderr (the drained, lossily decoded text is `stderr_text`
when the handle is present, empty otherwise), then run the poll loop if
the child handle is present.  Returns whether `.exit` was sent and the
loop outcome. -/
def dropRun (p : Sqlite3Process) (stderr_text : String)
    (polls : Nat → TryWaitResult) (elapsed : Nat → Duration) (fuel : Nat) :
    Bool × DropOutcome :=
  let stderr_output := if p.stderr_present then stderr_text else ""
  if p.child_present then
    (p.stdin_present,
      dropLoop polls elapsed stderr_output.isEmpty p.db_path 0 fuel)
  else
    (p.stdin_present, .returned false false false)

/-! ## Fixture helpers (`lib.rs`) -/

/-- The `WORDS` array of `lib.rs` (58 Latin words). -/
def WORDS : List String :=
  ["Cras", "Fusce", "Lorem", "Maecenas", "Nunc", "Orci", "Pellentesque",
   "Ut", "adipiscing", "amet", "at", "bibendum", "commodo", "condimentum",
   "consectetur", "dapibus", "dis", "dolor", "egestas", "elit", "eros",
   "et", "eu", "fringilla", "iaculis", "id", "in", "ipsum", "lacinia",
   "lorem", "magnis", "malesuada", "mi", "montes", "nascetur", "natoque",
   "nec", "nisi", "nulla", "parturient", "pellentesque", "penatibus",
   "placerat", "purus", "quam", "ridiculus", "risus", "sagittis",
   "scelerisque", "sed", "sem", "sit", "tincidunt", "tortor", "ultrices",
   "varius", "vel", "venenatis"]

/-- Outcome of a Rust computation that can either return a value, return
an `Err` value, or abort the process by panicking. -/
inductive Outcome (α : Type) where
  | ok (val : α)
  | err (msg : String)
  | panicked (msg : String)

/-- The global `fastrand` generator, modelled as an arbitrary stream of
naturals together with a position in it. -/
structure Rng where
  stream : Nat → Nat
  idx : Nat

/-- `fastrand::usize(lo..hi)` — the external `fastrand` crate's
documented behaviour: panics on an empty range, otherwise yields a value
in `[lo, hi)` and advances the generator. -/
def fastrandUsize (rng : Rng) (lo hi : Nat) : Outcome (Nat × Rng) :=
  if lo < hi then
    .ok (lo + rng.stream rng.idx % (hi - lo), ⟨rng.stream, rng.idx + 1⟩)
  else
    .panicked "empty range"

/-- The word-appending loop of `create_note`
(`for _ in 0..words_for_note`): sample an index below `WORDS.len()` and
append `WORDS[i]` and a space. -/
def noteLoop : Nat → Rng → String → Outcome (String × Rng)
  | 0, rng, note => .ok (note, rng)
  | k + 1, rng, note =>
    match fastrandUsize rng 0 WORDS.length with
    | .panicked m => .panicked m
    | .err m => .err m
    | .ok (i, rng) =>
      match WORDS.get? i with
      | some w => noteLoop k rng (note ++ w ++ " ")
      | none => .panicked "index out of bounds"

/-- `fn create_note(word_count: usize) -> String` from `lib.rs`: sample
`words_for_note = fastrand::usize(..word_count)`, then append that many
random words. -/
def create_note (word_count : Nat) (rng : Rng) : Outcome (String × Rng) :=
  match fastrandUsize rng 0 word_count with
  | .panicked m => .panicked m
  | .err m => .err m
  | .ok (words_for_note, rng) => noteLoop words_for_note rng ""

/-- The database connection, as the fixture helpers use it: statement
execution with parameters, statement preparation, a count query, and
`last_insert_rowid`. -/
structure DbConn where
  exec : String → List String → Except String Nat
  prepStmt : String → Except String Unit
  query_count : String → Except String Int
  last_insert_rowid : Int

/-- The per-row loop of `init_test_db`: generate a note (propagating a
panic), then run the prepared insert with it. -/
def initLoop (db : DbConn) (insertSql : String) (note_word_count : Nat) :
    Nat → Rng → Outcome Rng
  | 0, rng => .ok rng
  | k + 1, rng =>
    match create_note note_word_count rng with
    | .panicked m => .panicked m
    | .err m => .err m
    | .ok (note, rng) =>
      match db.exec insertSql [note] with
      | .error e => .err e
      | .ok _ => initLoop db insertSql note_word_count k rng

/-- `init_test_db` from `lib.rs`: seed the generator (`seedStream` is
the post-seed stream of the external generator), create the `notes`
table, prepare the insert, `BEGIN`, insert `row_count` random notes,
`COMMIT`, and run the verification count query. -/
def init_test_db (db : DbConn) (schema : String) (seedStream : Nat → Nat)
    (row_count note_word_count : Nat) : Outcome Unit :=
  let rng : Rng := ⟨seedStream, 0⟩
  match db.exec ("CREATE TABLE " ++ schema ++
      ".notes (id INTEGER PRIMARY KEY, text TEXT NOT NULL)") [] with
  | .error e => .err e
  | .ok _ =>
    match db.prepStmt ("INSERT INTO " ++ schema ++ ".notes (text) VALUES (?)") with
    | .error e => .err e
    | .ok _ =>
      match db.exec "BEGIN" [] with
      | .error e => .err e
      | .ok _ =>
        match initLoop db ("INSERT INTO " ++ schema ++ ".notes (text) VALUES (?)")
            note_word_count row_count rng with
        | .panicked m => .panicked m
        | .err e => .err e
        | .ok _ =>
          match db.exec "COMMIT" [] with
          | .error e => .err e
          | .ok _ =>
            match db.query_count ("SELECT COUNT(*) FROM " ++ schema ++ ".notes") with
            | .error e => .err e
            | .ok _ => .ok ()

/-- `insert_test_db` from `lib.rs`: generate a note (before touching the
database), insert it, return `last_insert_rowid`. -/
def insert_test_db (db : DbConn) (schema : String) (word_count : Nat)
    (rng : Rng) : Outcome (Int × Rng) :=
  match create_note word_count rng with
  | .panicked m => .panicked m
  | .err m => .err m
  | .ok (note, rng) =>
    match db.exec ("INSERT INTO " ++ schema ++ ".notes (text) values (?)") [note] with
    | .error e => .err e
    | .ok _ => .ok (db.last_insert_rowid, rng)

/-- `update_test_db` from `lib.rs`: generate a note (before touching the
database), then run the update statement. -/
def update_test_db (db : DbConn) (schema : String) (row_id : Int)
    (word_count : Nat) (rng : Rng) : Outcome Rng :=
  match create_note word_count rng with
  | .panicked m => .panicked m
  | .err m => .err m
  | .ok (note, rng) =>
    match db.exec ("UPDATE " ++ schema ++ ".notes SET text = ? WHERE id = ?")
        [note, toString row_id] with
    | .error e => .err e
    | .ok _ => .ok rng

/-! ## Concrete instances used by the witnesses -/

/-- A database connection on which every operation succeeds. -/
def dbAllOk : DbConn :=
  ⟨fun _ _ => .ok 0, fun _ => .ok (), fun _ => .ok 0, 1⟩

/-- An RNG stream that always yields 0. -/
def zeroRng : Rng := ⟨fun _ => 0, 0⟩

/-- A poll sequence that never reports exit. -/
def pollsNever : Nat → TryWaitResult := fun _ => .notYet

/-- A clock already past the 60-second ceiling at every poll. -/
def elapsedLate : Nat → Duration := fun _ => Duration.fromSecs 61

/-- A poll sequence whose first answer is a failed status query. -/
def pollsErr : Nat → TryWaitResult := fun _ => .queryErr "no child"

/-- A poll sequence whose first answer is a failed exit. -/
def pollsExitFail : Nat → TryWaitResult := fun _ => .exited false

/-- A clock that never reaches the ceiling. -/
def elapsedZero : Nat → Duration := fun _ => 0

/-! ## Helper lemmas: strings and substring containment -/

theorem strData_append (a b : String) : (a ++ b).data = a.data ++ b.data := by
  cases a; cases b; rfl

theorem strEmpty_append (a : String) : "" ++ a = a := by
  cases a with
  | mk d => rfl

theorem strAppend_empty (a : String) : a ++ "" = a := by
  cases a with
  | mk d =>
    show String.mk (d ++ []) = String.mk d
    rw [List.append_nil]

theorem strAppend_assoc (a b c : String) : a ++ b ++ c = a ++ (b ++ c) := by
  cases a; cases b; cases c
  show String.mk _ = String.mk _
  rw [List.append_assoc]

theorem containsSub_cons (needle : List Char) (d : Char) (ds : List Char) :
    containsSub needle (d :: ds) =
      (prefixAt needle (d :: ds) || containsSub needle ds) := rfl

theorem prefixAt_append_elim (x : List Char) : ∀ (y h : List Char),
    prefixAt (x ++ y) h = true → prefixAt y (h.drop x.length) = true := by
  induction x with
  | nil => intro y h hp; simpa using hp
  | cons c cs ih =>
    intro y h hp
    cases h with
    | nil => exact absurd hp (by simp [prefixAt])
    | cons d ds =>
      rw [List.cons_append, prefixAt, Bool.and_eq_true] at hp
      simpa using ih y ds hp.2

theorem prefixAt_append_left (x : List Char) : ∀ (y h : List Char),
    prefixAt (x ++ y) h = true → prefixAt x h = true := by
  induction x with
  | nil => intro y h _; rfl
  | cons c cs ih =>
    intro y h hp
    cases h with
    | nil => exact absurd hp (by simp [prefixAt])
    | cons d ds =>
      rw [List.cons_append, prefixAt, Bool.and_eq_true] at hp
      rw [prefixAt, Bool.and_eq_true]
      exact ⟨hp.1, ih y ds hp.2⟩

theorem prefixAt_drop_contains (needle : List Char) : ∀ (h : List Char) (k : Nat),
    prefixAt needle (h.drop k) = true → containsSub needle h = true := by
  intro h
  induction h with
  | nil => intro k hp; simpa [containsSub] using hp
  | cons d t ih =>
    intro k hp
    cases k with
    | zero =>
      rw [containsSub_cons, Bool.or_eq_true]
      exact Or.inl (by simpa using hp)
    | succ j =>
      rw [containsSub_cons, Bool.or_eq_true]
      exact Or.inr (ih j (by simpa using hp))

theorem prefixAt_refl : ∀ x : List Char, prefixAt x x = true
  | [] => rfl
  | c :: cs => by simp [prefixAt, prefixAt_refl cs]

theorem containsSub_append_self : ∀ (a n : List Char), containsSub n (a ++ n) = true
  | [], n => by
    cases n with
    | nil => rfl
    | cons c cs => simp [containsSub_cons, prefixAt_refl]
  | d :: a, n => by
    rw [List.cons_append, containsSub_cons, containsSub_append_self a n, Bool.or_true]

theorem strContains_append_self (a b : String) : strContains (a ++ b) b = true := by
  rw [strContains, strData_append]
  exact containsSub_append_self a.data b.data

theorem sentinel_imp_marker (l : List Char) :
    containsSub "SELECT 'MARKER_END'".data l = true →
      containsSub "MARKER_END".data l = true := by
  induction l with
  | nil => intro h; exact absurd h (by decide)
  | cons d t ih =>
    intro h
    rw [containsSub_cons, Bool.or_eq_true] at h
    rcases h with h1 | h2
    · have hdec : "SELECT 'MARKER_END'".data =
          "SELECT '".data ++ ("MARKER_END".data ++ "'".data) := by decide
      rw [hdec] at h1
      have h3 := prefixAt_append_elim _ _ _ h1
      have h4 := prefixAt_append_left _ _ _ h3
      exact prefixAt_drop_contains _ _ _ h4
    · rw [containsSub_cons, Bool.or_eq_true]
      exact Or.inr (ih h2)

theorem strContains_sentinel_imp_marker (l : String)
    (h : strContains l "SELECT 'MARKER_END'" = true) :
    strContains l "MARKER_END" = true :=
  sentinel_imp_marker l.data h

theorem strContains_no_marker_no_sentinel (l : String)
    (h : strContains l "MARKER_END" = false) :
    strContains l "SELECT 'MARKER_END'" = false := by
  cases hs : strContains l "SELECT 'MARKER_END'" with
  | false => rfl
  | true => rw [strContains_sentinel_imp_marker l hs] at h; exact absurd h (by simp)

/-! ## Helper lemmas: the read loop -/

theorem readOutput_before_marker (term : String) (rest : List ReadEvent)
    (hterm : strContains term "MARKER_END" = true) :
    ∀ (pre : List String) (acc : String),
      (∀ l ∈ pre, strContains l "MARKER_END" = false) →
      (readOutput (pre.map ReadEvent.line ++ ReadEvent.line term :: rest) acc).1 =
        .ok (acc ++ concatLines pre) := by
  intro pre
  induction pre with
  | nil =>
    intro acc _
    simp [readOutput, hterm, concatLines, strAppend_empty]
  | cons l ls ih =>
    intro acc h
    have hl : strContains l "MARKER_END" = false := h l (by simp)
    have hsent : strContains l "SELECT 'MARKER_END'" = false :=
      strContains_no_marker_no_sentinel l hl
    rw [List.map_cons, List.cons_append]
    rw [show (readOutput (ReadEvent.line l ::
        (ls.map ReadEvent.line ++ ReadEvent.line term :: rest)) acc) =
      (if strContains l "MARKER_END" then ((Except.ok acc : Except String String), 1)
       else
         if strContains l "SELECT 'MARKER_END'" then
           let r := readOutput (ls.map ReadEvent.line ++ ReadEvent.line term :: rest) acc
           (r.1, r.2 + 1)
         else
           let r := readOutput (ls.map ReadEvent.line ++ ReadEvent.line term :: rest) (acc ++ l)
           (r.1, r.2 + 1)) from rfl]
    rw [hl, hsent]
    simp only [Bool.false_eq_true, if_false]
    rw [ih (acc ++ l) (fun x hx => h x (by simp [hx]))]
    rw [concatLines, strAppend_assoc]

theorem readOutput_no_marker :
    ∀ (lines : List String) (acc : String),
      (∀ l ∈ lines, strContains l "MARKER_END" = false) →
      (readOutput (lines.map ReadEvent.line) acc).1 =
        .error "Failed to read complete output" := by
  intro lines
  induction lines with
  | nil => intro acc _; rfl
  | cons l ls ih =>
    intro acc h
    have hl : strContains l "MARKER_END" = false := h l (by simp)
    have hsent : strContains l "SELECT 'MARKER_END'" = false :=
      strContains_no_marker_no_sentinel l hl
    rw [List.map_cons]
    rw [show (readOutput (ReadEvent.line l :: ls.map ReadEvent.line) acc) =
      (if strContains l "MARKER_END" then ((Except.ok acc : Except String String), 1)
       else
         if strContains l "SELECT 'MARKER_END'" then
           let r := readOutput (ls.map ReadEvent.line) acc
           (r.1, r.2 + 1)
         else
           let r := readOutput (ls.map ReadEvent.line) (acc ++ l)
           (r.1, r.2 + 1)) from rfl]
    rw [hl, hsent]
    simp only [Bool.false_eq_true, if_false]
    exact ih (acc ++ l) (fun x hx => h x (by simp [hx]))

/-! ## Helper lemmas: the shutdown poll loop -/

theorem dropLoop_skip (polls : Nat → TryWaitResult) (elapsed : Nat → Duration)
    (se : Bool) (path : String) :
    ∀ (i start fuel : Nat),
      (∀ j, j < i → polls (start + j) = .notYet ∧
        is_timed_out (elapsed (start + j)) (Duration.fromSecs 60) = false) →
      dropLoop polls elapsed se path start (i + fuel) =
        dropLoop polls elapsed se path (start + i) fuel := by
  intro i
  induction i with
  | zero => intro start fuel _; simp
  | succ k ih =>
    intro start fuel h
    have h0 := h 0 (by omega)
    rw [Nat.add_zero] at h0
    have hstep : dropLoop polls elapsed se path start (k + 1 + fuel) =
        dropLoop polls elapsed se path (start + 1) (k + fuel) := by
      rw [show k + 1 + fuel = (k + fuel) + 1 by omega]
      rw [dropLoop, h0.1, h0.2]
      simp
    rw [hstep]
    rw [ih (start + 1) fuel (fun j hj => by
      have := h (j + 1) (by omega)
      rwa [show start + (j + 1) = start + 1 + j by omega] at this)]
    rw [show start + 1 + k = start + (k + 1) by omega]

/-! ## Helper lemmas: the dummy-data batch and the fixture loops -/

theorem dummyInsertLoop_all_ok (f : String → Except String String) :
    ∀ (r number : Nat) (done : List String),
      (∀ j, j < r → ∃ v, f (insStmt (number + j)) = .ok v) →
      dummyInsertLoop f r number done =
        .completed (done.reverse ++ (List.range' number r).map insStmt) := by
  intro r
  induction r with
  | zero => intro number done _; simp [dummyInsertLoop]
  | succ k ih =>
    intro number done h
    obtain ⟨v, hv⟩ := h 0 (by omega)
    rw [Nat.add_zero] at hv
    simp only [dummyInsertLoop, hv]
    rw [ih (number + 1) (insStmt number :: done) (fun j hj => by
      have := h (j + 1) (by omega)
      rwa [show number + (j + 1) = number + 1 + j by omega] at this)]
    rw [show List.range' number (k + 1) = number :: List.range' (number + 1) k from rfl]
    simp

theorem dummyInsertLoop_fail (f : String → Except String String) :
    ∀ (k r number : Nat) (done : List String) (e : String),
      (∀ j, j < k → ∃ v, f (insStmt (number + j)) = .ok v) →
      f (insStmt (number + k)) = .error e →
      k < r →
      dummyInsertLoop f r number done =
        .panicked (done.reverse ++ (List.range' number k).map insStmt)
          (insStmt (number + k)) e := by
  intro k
  induction k with
  | zero =>
    intro r number done e _ he hr
    cases r with
    | zero => omega
    | succ m =>
      rw [Nat.add_zero] at he
      simp [dummyInsertLoop, he]
  | succ m ih =>
    intro r number done e h he hr
    cases r with
    | zero => omega
    | succ r2 =>
      obtain ⟨v, hv⟩ := h 0 (by omega)
      rw [Nat.add_zero] at hv
      simp only [dummyInsertLoop, hv]
      rw [ih r2 (number + 1) (insStmt number :: done) e
        (fun j hj => by
          have := h (j + 1) (by omega)
          rwa [show number + (j + 1) = number + 1 + j by omega] at this)
        (by rwa [show number + 1 + m = number + (m + 1) by omega])
        (by omega)]
      rw [show List.range' number (m + 1) = number :: List.range' (number + 1) m from rfl]
      simp [show number + 1 + m = number + (m + 1) by omega]

theorem create_note_zero_panics (rng : Rng) :
    create_note 0 rng = .panicked "empty range" := by
  simp [create_note, fastrandUsize]

theorem initLoop_word_count_zero (db : DbConn) (sqlIns : String) (k : Nat) (rng : Rng) :
    initLoop db sqlIns 0 (k + 1) rng = .panicked "empty range" := by
  simp [initLoop, create_note_zero_panics]

/-! ## Claims -/

/-- Claim C1, counterexample: on the inbound line sequence
`SELECT 'MARKER_END';\n`, `row1\n`, `MARKER_END\n`, the claim says the
echo line is discarded with reading continuing, so `row1\n` belongs to
the returned output — but the code's first check (`contains MARKER_END`)
already fires on the echo line itself, terminating the read with empty
output. -/
theorem C1_counterexample :
    (execute (some okPipe)
      (some [ReadEvent.line "SELECT 'MARKER_END';\n", ReadEvent.line "row1\n",
        ReadEvent.line "MARKER_END\n"]) "SELECT 1;").result = .ok "" ∧
    readOutputSpecModel ["SELECT 'MARKER_END';\n", "row1\n", "MARKER_END\n"] "" =
      some "row1\n" ∧
    (Except.ok ("" : String) : Except String String) ≠ Except.ok "row1\n" := by
  refine ⟨rfl, rfl, fun h => ?_⟩
  injection h with h2
  exact absurd h2 (by decide)

/-- Claim C1, amended: the first inbound line containing the substring
`MARKER_END` — including the line that is the literal echo of
`SELECT 'MARKER_END';`, since it contains that substring — terminates
the read and is discarded; every line read before that terminating line
is concatenated, in emission order and with original content preserved,
into the returned output. -/
theorem C1_execute_output (sql : String) (pre : List String) (term : String)
    (rest : List ReadEvent)
    (hpre : ∀ l ∈ pre, strContains l "MARKER_END" = false)
    (hterm : strContains term "MARKER_END" = true) :
    (execute (some okPipe)
      (some (pre.map ReadEvent.line ++ ReadEvent.line term :: rest)) sql).result =
      .ok (concatLines pre) := by
  have h0 : (execute (some okPipe)
      (some (pre.map ReadEvent.line ++ ReadEvent.line term :: rest)) sql).result =
      (readOutput (pre.map ReadEvent.line ++ ReadEvent.line term :: rest) "").1 := rfl
  rw [h0, readOutput_before_marker term rest hterm pre "" hpre, strEmpty_append]

/-- Witness for the amended C1 with one payload line before the marker. -/
theorem C1_witness :
    (execute (some okPipe)
      (some (["row1\n"].map ReadEvent.line ++
        ReadEvent.line "MARKER_END\n" :: [])) "SELECT 1;").result = .ok "row1\n" :=
  C1_execute_output "SELECT 1;" ["row1\n"] "MARKER_END\n" [] (by decide) (by decide)

/-- Claim C2, counterexample: after a successful spawn where the
diagnostic (stderr) handle cannot be obtained, `new` nevertheless
succeeds — the code takes stderr without checking it — contradicting
"fails whenever any of the three pipe handles cannot be obtained". -/
theorem C2_counterexample :
    new "db" (.ok ⟨some (), some (), none⟩) =
      .ok ⟨true, true, true, false, "db"⟩ := rfl

/-- Claim C2, amended: construction fails with a spawn-style error
whenever the process cannot be launched, or whenever the input or
output pipe handle cannot be obtained after a successful launch; a
missing diagnostic handle is tolerated and merely recorded as absent;
in every failure case no Session value is produced (the result is the
error alone). -/
theorem C2_new_failure_modes :
    (∀ path e : String,
      new path (.failure e) = .error ("Failed to spawn sqlite3: " ++ e)) ∧
    (∀ (path : String) (c : SpawnedChild), c.stdin = none →
      new path (.ok c) = .error "Failed to get stdin handle") ∧
    (∀ (path : String) (c : SpawnedChild) (u : Unit), c.stdin = some u →
      c.stdout = none → new path (.ok c) = .error "Failed to get stdout handle") ∧
    (∀ (path : String) (c : SpawnedChild) (u v : Unit), c.stdin = some u →
      c.stdout = some v →
      new path (.ok c) = .ok ⟨true, true, true, c.stderr.isSome, path⟩) := by
  refine ⟨fun _ _ => rfl, ?_, ?_, ?_⟩
  · intro path c h
    cases c
    subst h
    rfl
  · intro path c u h1 h2
    cases c
    subst h1
    subst h2
    rfl
  · intro path c u v h1 h2
    cases c
    subst h1
    subst h2
    rfl

/-- Witness for the amended C2: a child with no stdin handle fails
construction, and a child missing only stderr succeeds. -/
theorem C2_witness :
    new "db" (.ok ⟨none, some (), some ()⟩) = .error "Failed to get stdin handle" ∧
    new "db" (.ok ⟨some (), none, some ()⟩) = .error "Failed to get stdout handle" :=
  ⟨C2_new_failure_modes.2.1 "db" ⟨none, some (), some ()⟩ rfl,
   C2_new_failure_modes.2.2.1 "db" ⟨some (), none, some ()⟩ () rfl rfl⟩

/-- Claim C3: when no inbound line containing `MARKER_END` is observed
before the output stream reaches end-of-input, `execute` returns the
incomplete-output error rather than the partial accumulated text. -/
theorem C3_incomplete_output (sql : String) (lines : List String)
    (h : ∀ l ∈ lines, strContains l "MARKER_END" = false) :
    (execute (some okPipe) (some (lines.map ReadEvent.line)) sql).result =
      .error "Failed to read complete output" := by
  have h0 : (execute (some okPipe) (some (lines.map ReadEvent.line)) sql).result =
      (readOutput (lines.map ReadEvent.line) "").1 := rfl
  rw [h0]
  exact readOutput_no_marker lines "" h

/-- Witness for C3: a single marker-free line followed by end of input. -/
theorem C3_witness :
    (execute (some okPipe) (some (["row1\n"].map ReadEvent.line)) "SELECT 1;").result =
      .error "Failed to read complete output" :=
  C3_incomplete_output "SELECT 1;" ["row1\n"] (by decide)

/-- Claim C4: with a 60-second ceiling, `is_timed_out` is false at 0,
59 s and exactly 60 s, and true at 60 s + 1 ms and 61 s; in general the
boundary is exclusive-above. -/
theorem C4_is_timed_out_boundary :
    is_timed_out (Duration.fromSecs 0) (Duration.fromSecs 60) = false ∧
    is_timed_out (Duration.fromSecs 59) (Duration.fromSecs 60) = false ∧
    is_timed_out (Duration.fromSecs 60) (Duration.fromSecs 60) = false ∧
    is_timed_out (Duration.fromMillis 60001) (Duration.fromSecs 60) = true ∧
    is_timed_out (Duration.fromSecs 61) (Duration.fromSecs 60) = true ∧
    (∀ e : Duration, is_timed_out e (Duration.fromSecs 60) = true ↔
      Duration.fromSecs 60 < e) := by
  refine ⟨by decide, by decide, by decide, by decide, by decide, fun e => ?_⟩
  simp [is_timed_out]

/-- Claim C5: `should_log_error` is true exactly for
`(success = false, diagnostic_empty = false)`, and on process exit the
shutdown sequence's warning decision is exactly `should_log_error`
applied to the exit status and the emptiness of the drained diagnostic
output. -/
theorem C5_should_log_error_table :
    (∀ s e, should_log_error s e = true ↔ s = false ∧ e = false) ∧
    (∀ (si so se : Bool) (path stderr_text : String)
        (polls : Nat → TryWaitResult) (elapsed : Nat → Duration)
        (fuel : Nat) (success : Bool),
      polls 0 = .exited success → 0 < fuel →
      (dropRun ⟨true, si, so, se, path⟩ stderr_text polls elapsed fuel).2 =
        .returned (should_log_error success
          ((if se then stderr_text else "").isEmpty)) false false) := by
  refine ⟨by decide, ?_⟩
  intro si so se path st polls elapsed fuel success hp hf
  cases fuel with
  | zero => omega
  | succ f => simp [dropRun, dropLoop, hp]

/-- Witness for C5: a failed exit with non-empty diagnostic output logs
the warning. -/
theorem C5_witness :
    (dropRun ⟨true, true, true, true, "db"⟩ "boom" pollsExitFail elapsedZero 1).2 =
      .returned true false false :=
  C5_should_log_error_table.2 true true true "db" "boom" pollsExitFail elapsedZero 1
    false rfl (by decide)

/-- Claim C6: when every status poll reports the process as not yet
exited and the elapsed time at some poll exceeds the 60-second ceiling,
the shutdown sequence kills the process and panics with a message that
contains the database path — it does not return silently (`panicked`
is distinct from every `returned` outcome). -/
theorem C6_shutdown_timeout_panics (si so se : Bool) (path stderr_text : String)
    (polls : Nat → TryWaitResult) (elapsed : Nat → Duration) (i fuel : Nat)
    (hpre : ∀ j, j < i → polls j = .notYet ∧
      is_timed_out (elapsed j) (Duration.fromSecs 60) = false)
    (hp : polls i = .notYet)
    (ht : is_timed_out (elapsed i) (Duration.fromSecs 60) = true)
    (hfuel : i < fuel) :
    (dropRun ⟨true, si, so, se, path⟩ stderr_text polls elapsed fuel).2 =
      .panicked true ("sqlite3 process hung for " ++ path) ∧
    strContains ("sqlite3 process hung for " ++ path) path = true := by
  constructor
  · have h1 : (dropRun ⟨true, si, so, se, path⟩ stderr_text polls elapsed fuel).2 =
        dropLoop polls elapsed ((if se then stderr_text else "").isEmpty)
          path 0 fuel := by
      simp [dropRun]
    rw [h1, show fuel = i + (fuel - i) by omega]
    rw [dropLoop_skip polls elapsed _ path i 0 (fuel - i)
      (fun j hj => by simpa using hpre j hj)]
    obtain ⟨m, hm⟩ : ∃ m, fuel - i = m + 1 := ⟨fuel - i - 1, by omega⟩
    rw [show (0 : Nat) + i = i by omega, hm]
    simp [dropLoop, hp, ht]
  · exact strContains_append_self "sqlite3 process hung for " path

/-- Witness for C6: a process that never exits, polled once with the
clock already past the ceiling, triggers the fatal abort. -/
theorem C6_witness :
    (dropRun ⟨true, true, true, true, "db"⟩ "" pollsNever elapsedLate 1).2 =
      .panicked true ("sqlite3 process hung for " ++ "db") ∧
    strContains ("sqlite3 process hung for " ++ "db") "db" = true :=
  C6_shutdown_timeout_panics true true true "db" "" pollsNever elapsedLate 0 1
    (fun j hj => absurd hj (by omega)) rfl (by decide) (by decide)

/-- Claim C7: when a status poll itself errors (after any prefix of
quiet, in-time polls), the shutdown sequence logs the error, kills the
process, and returns normally — no panic. -/
theorem C7_shutdown_query_error_returns (si so se : Bool)
    (path stderr_text e : String)
    (polls : Nat → TryWaitResult) (elapsed : Nat → Duration) (i fuel : Nat)
    (hpre : ∀ j, j < i → polls j = .notYet ∧
      is_timed_out (elapsed j) (Duration.fromSecs 60) = false)
    (hq : polls i = .queryErr e)
    (hfuel : i < fuel) :
    (dropRun ⟨true, si, so, se, path⟩ stderr_text polls elapsed fuel).2 =
      .returned false true true := by
  have h1 : (dropRun ⟨true, si, so, se, path⟩ stderr_text polls elapsed fuel).2 =
      dropLoop polls elapsed ((if se then stderr_text else "").isEmpty)
        path 0 fuel := by
    simp [dropRun]
  rw [h1, show fuel = i + (fuel - i) by omega]
  rw [dropLoop_skip polls elapsed _ path i 0 (fuel - i)
    (fun j hj => by simpa using hpre j hj)]
  obtain ⟨m, hm⟩ : ∃ m, fuel - i = m + 1 := ⟨fuel - i - 1, by omega⟩
  rw [show (0 : Nat) + i = i by omega, hm]
  simp [dropLoop, hq]

/-- Witness for C7: the very first poll fails, the sequence returns
after logging and killing. -/
theorem C7_witness :
    (dropRun ⟨true, true, true, true, "db"⟩ "" pollsErr elapsedZero 1).2 =
      .returned false true true :=
  C7_shutdown_query_error_returns true true true "db" "" "no child" pollsErr
    elapsedZero 0 1 (fun j hj => absurd hj (by omega)) rfl (by decide)

/-- Claim C8: when the input-stream handle or the output-stream handle
has been consumed, `execute` fails with the corresponding error, writes
nothing to the process, and reads nothing from it. -/
theorem C8_execute_missing_handles :
    (∀ (stdout : Option (List ReadEvent)) (sql : String),
      execute none stdout sql = ⟨.error "stdin is not available", [], 0⟩) ∧
    (∀ (pipe : StdinPipe) (sql : String),
      execute (some pipe) none sql = ⟨.error "stdout is not available", [], 0⟩) :=
  ⟨fun _ _ => rfl, fun _ _ => rfl⟩

/-- Claim C9: the dummy-data batch runs the fixed table-creation
statement followed by the inserts for numbers 1 through 999 (1000
statements in total, 999 of them inserts); the first insert carries
`Hello, World! 1`; a failing creation statement or a first failing
insert aborts the whole batch as a panic at that statement. -/
theorem C9_create_dummy_data :
    (∀ f : String → Except String String, (∀ s, ∃ v, f s = .ok v) →
      create_dummy_data f = .completed (createStmt :: (List.range' 1 999).map insStmt)) ∧
    (createStmt :: (List.range' 1 999).map insStmt).length = 1000 ∧
    ((List.range' 1 999).map insStmt).length = 999 ∧
    ((List.range' 1 999).map insStmt).head? = some (insStmt 1) ∧
    strContains (insStmt 1) "Hello, World! 1" = true ∧
    (∀ (f : String → Except String String) (e : String), f createStmt = .error e →
      create_dummy_data f = .panicked [] createStmt e) ∧
    (∀ (f : String → Except String String) (k : Nat) (e : String),
      k < 999 → (∃ v, f createStmt = .ok v) →
      (∀ j, j < k → ∃ v, f (insStmt (1 + j)) = .ok v) →
      f (insStmt (1 + k)) = .error e →
      create_dummy_data f =
        .panicked (createStmt :: (List.range' 1 k).map insStmt) (insStmt (1 + k)) e) := by
  refine ⟨?_, by simp, by simp, rfl, by decide, ?_, ?_⟩
  · intro f h
    obtain ⟨v, hv⟩ := h createStmt
    simp only [create_dummy_data, hv]
    rw [dummyInsertLoop_all_ok f 999 1 [createStmt] (fun j _ => h _)]
    simp
  · intro f e he
    simp [create_dummy_data, he]
  · intro f k e hk hok h he
    obtain ⟨v, hv⟩ := hok
    simp only [create_dummy_data, hv]
    rw [dummyInsertLoop_fail f k 999 1 [createStmt] e h he hk]
    simp

/-- Witness for C9: with an executor that accepts every statement the
batch completes with the full 1000-statement sequence. -/
theorem C9_witness :
    create_dummy_data (fun _ => .ok "") =
      .completed (createStmt :: (List.range' 1 999).map insStmt) :=
  C9_create_dummy_data.1 (fun _ => .ok "") (fun _ => ⟨"", rfl⟩)

/-- Claim C10, counterexample: with a database connection on which every
statement succeeds, `init_test_db` called with `row_count = 0` and a
word count of 0 returns successfully — the loop body that would call
`create_note` never runs, so no panic occurs. -/
theorem C10_counterexample :
    init_test_db dbAllOk "main" (fun _ => 0) 0 0 = .ok () := rfl

/-- Claim C10, amended: `create_note` panics on a word count of 0 for
every generator state; `insert_test_db` and `update_test_db` therefore
always panic when called with word count 0 (the note is generated
before any database work); `init_test_db` panics with note word count 0
provided `row_count ≥ 1` and the preceding table-creation, prepare and
`BEGIN` steps succeed — with `row_count = 0` it never generates a note. -/
theorem C10_zero_word_count_panics :
    (∀ rng : Rng, create_note 0 rng = .panicked "empty range") ∧
    (∀ (db : DbConn) (schema : String) (rng : Rng),
      insert_test_db db schema 0 rng = .panicked "empty range") ∧
    (∀ (db : DbConn) (schema : String) (row_id : Int) (rng : Rng),
      update_test_db db schema row_id 0 rng = .panicked "empty range") ∧
    (∀ (db : DbConn) (schema : String) (seedStream : Nat → Nat) (row_count : Nat),
      0 < row_count →
      (∃ n, db.exec ("CREATE TABLE " ++ schema ++
        ".notes (id INTEGER PRIMARY KEY, text TEXT NOT NULL)") [] = .ok n) →
      (∃ u, db.prepStmt ("INSERT INTO " ++ schema ++
        ".notes (text) VALUES (?)") = .ok u) →
      (∃ n, db.exec "BEGIN" [] = .ok n) →
      init_test_db db schema seedStream row_count 0 = .panicked "empty range") := by
  refine ⟨create_note_zero_panics, ?_, ?_, ?_⟩
  · intro db schema rng
    simp [insert_test_db, create_note_zero_panics]
  · intro db schema row_id rng
    simp [update_test_db, create_note_zero_panics]
  · intro db schema seedStream row_count hr hc hp hb
    obtain ⟨n1, h1⟩ := hc
    obtain ⟨u, h2⟩ := hp
    obtain ⟨n2, h3⟩ := hb
    cases row_count with
    | zero => omega
    | succ k =>
      simp [init_test_db, h1, h2, h3, initLoop_word_count_zero]

/-- Witness for the amended C10: one row, word count 0, all database
steps succeeding — the run panics. -/
theorem C10_witness :
    init_test_db dbAllOk "main" (fun _ => 0) 1 0 = .panicked "empty range" :=
  C10_zero_word_count_panics.2.2.2 dbAllOk "main" (fun _ => 0) 1 (by decide)
    ⟨0, rfl⟩ ⟨(), rfl⟩ ⟨0, rfl⟩

end SqliteTestUtils
